import Mathlib

/-!
Shallow embedding of the SwarAI fallback-routing core:
`src/backend/ollama_helper.py`, `src/backend/gemini_fallback.py`, and the
`/ask` endpoint of `src/backend/main.py`.

Network and database effects are modelled by explicit oracles giving the
outcome of each outbound call; where the Python code can raise, the model
uses `Except String` with the raised message as the error, and the code's
`try/except` blocks become explicit matches on that `Except`.  Wall-clock
time is modelled by non-negative millisecond durations attributed to each
blocking step of a request.
-/

namespace SwarAI

/-- The HTTP call `ollama_helper.get_response` constructs: the fixed local
URL, the JSON payload `{model, prompt, stream: False}` and the 60 second
timeout (`src/backend/ollama_helper.py` lines 26-37). -/
structure OllamaHttpCall where
  url : String
  model : String
  prompt : String
  stream : Bool
  timeoutSeconds : Nat
  deriving DecidableEq, Repr

def ollamaHttpCall (query model : String) : OllamaHttpCall :=
  { url := "http://localhost:11434/api/generate"
  , model := model
  , prompt := query
  , stream := false
  , timeoutSeconds := 60 }

/-- The HTTP call `gemini_fallback.get_response` constructs for one
credential: the model-specific URL, the `key` query parameter, the user text
of the payload and the 30 second timeout
(`src/backend/gemini_fallback.py` lines 55-94). -/
structure GeminiHttpCall where
  url : String
  keyParam : String
  promptText : String
  timeoutSeconds : Nat
  deriving DecidableEq, Repr

def geminiHttpCall (query model apiKey : String) : GeminiHttpCall :=
  { url := "https://generativelanguage.googleapis.com/v1/models/" ++ model
        ++ ":generateContent"
  , keyParam := apiKey
  , promptText := query
  , timeoutSeconds := 30 }

/-- Outcome of the one `requests.post` to Ollama, as seen by
`ollama_helper.get_response`: either the call raised (connection error,
timeout, ...) with a message, or a response arrived carrying a status code,
a body text, and the value of `response.json().get("response")` — `.error`
when `response.json()` itself raised (body not JSON), `.ok none` when the
decoded body has no `"response"` key. -/
inductive OllamaHttp where
  | raised (msg : String)
  | resp (status : Nat) (text : String) (jsonResponseField : Except String (Option String))

/-- Whether the outcome is a transport, timeout, status or decode problem —
everything except a 200 response whose decoded body has a `"response"`
value. -/
def OllamaHttp.failed : OllamaHttp → Bool
  | .raised _ => true
  | .resp status _ j =>
      if status = 200 then
        match j with
        | .error _ => true
        | .ok f => f.isNone
      else true

/-- The body of the `try` block of `ollama_helper.get_response`
(lines 24-45): may raise (`.error`), otherwise produces the function's
return value (`result.get("response")` on status 200, `None` otherwise). -/
def ollama_try_body (h : OllamaHttp) : Except String (Option String) :=
  match h with
  | .raised m => .error m
  | .resp status _ j =>
      if status = 200 then
        match j with
        | .error m => .error m
        | .ok f => .ok f
      else .ok none

/-- `ollama_helper.get_response` with the escaping-exception channel kept in
the type: the `except Exception` handler (lines 47-50) turns every raise
into a returned `None`, so no `.error` is ever produced. -/
def ollama_get_response_exc (query model : String) (h : OllamaHttp) :
    Except String (Option String) :=
  match ollama_try_body h with
  | .ok v => .ok v
  | .error _ => .ok none

/-- `ollama_helper.get_response`: the response string, or `None` on any
failure. -/
def ollama_get_response (query model : String) (h : OllamaHttp) : Option String :=
  match ollama_try_body h with
  | .ok v => v
  | .error _ => none

/-- The metadata dictionary both adapters return:
`{response, source, latency_ms}`, plus the `"error"` key the Gemini adapter
adds on failure. -/
structure BackendMeta where
  response : Option String
  source : String
  latency_ms : Nat
  error : Option String
  deriving DecidableEq, Repr

/-- `ollama_helper.get_response_with_metadata`: wraps `get_response`, tags
the result with source `"ollama"` and the elapsed milliseconds. -/
def ollama_get_response_with_metadata (query model : String) (h : OllamaHttp)
    (elapsedMs : Nat) : BackendMeta :=
  { response := ollama_get_response query model h
  , source := "ollama"
  , latency_ms := elapsedMs
  , error := none }

/-- Same wrapper with the escaping-exception channel kept in the type: an
exception raised by `get_response` would propagate (there is no handler in
`get_response_with_metadata`'s `try/finally`), modelled by `Except.map`. -/
def ollama_get_response_with_metadata_exc (query model : String) (h : OllamaHttp)
    (elapsedMs : Nat) : Except String BackendMeta :=
  (ollama_get_response_exc query model h).map fun r =>
    { response := r, source := "ollama", latency_ms := elapsedMs, error := none }

/-- Outcome of one credential attempt inside the loop of
`gemini_fallback.get_response` (lines 52-116): the attempt raised, or the
API answered non-200, or it answered 200 with a body missing the
`candidates[0].content.parts[0].text` path, or it produced that text. -/
inductive GeminiAttempt where
  | raised (msg : String)
  | apiError (status : Nat) (text : String)
  | badStructure (bodyDump : String)
  | ok (text : String)
  deriving DecidableEq, Repr

/-- The string appended to `errors` for a failed attempt, following the
code's three `errors.append(...)` sites. -/
def GeminiAttempt.errString : GeminiAttempt → String
  | .raised m => "Exception: " ++ m
  | .apiError status text => "API error: " ++ toString status ++ " - " ++ text
  | .badStructure bodyDump => "Unexpected response structure: " ++ bodyDump
  | .ok _ => ""

def GeminiAttempt.isOk : GeminiAttempt → Bool
  | .ok _ => true
  | _ => false

/-- Result of `gemini_fallback.get_response` instrumented with the number of
credential attempts actually performed; `.error` is the raised
`GeminiFallbackError`'s message. -/
structure GeminiRun where
  result : Except String String
  attempts : Nat

/-- The `for api_key in keys_to_try` loop of `gemini_fallback.get_response`:
`idx` is the index of the next attempt, `remaining` the keys still to try,
`errors` the accumulated failure strings.  Returns at the first successful
attempt; once every key has failed, raises the aggregate
`GeminiFallbackError`. -/
def gemini_try (oracle : Nat → GeminiAttempt) :
    Nat → List String → List String → GeminiRun
  | _, [], errors =>
      { result := .error ("All Gemini API keys failed: " ++ String.intercalate "; " errors)
      , attempts := 0 }
  | idx, _ :: rest, errors =>
      match oracle idx with
      | .ok t => { result := .ok t, attempts := 1 }
      | o =>
          let r := gemini_try oracle (idx + 1) rest (errors ++ [o.errString])
          { result := r.result, attempts := r.attempts + 1 }

/-- `keys_to_try = api_keys if api_keys else DEFAULT_API_KEYS`: `None` and
the empty list are both falsy, so only a non-empty argument overrides the
environment defaults. -/
def geminiEffectiveKeys : Option (List String) → List String → List String
  | some (k :: ks), _ => k :: ks
  | some [], defaults => defaults
  | none, defaults => defaults

/-- `gemini_fallback.get_response`: raises `"No Gemini API keys available"`
before any attempt when the effective key list is empty, otherwise runs the
rotation loop from index 0 with no accumulated errors. -/
def gemini_get_response (query model : String) (apiKeys : Option (List String))
    (defaults : List String) (oracle : Nat → GeminiAttempt) : GeminiRun :=
  if (geminiEffectiveKeys apiKeys defaults).isEmpty then
    { result := .error "No Gemini API keys available", attempts := 0 }
  else
    gemini_try oracle 0 (geminiEffectiveKeys apiKeys defaults) []

/-- `gemini_fallback.get_response_with_metadata`: catches
`GeminiFallbackError` and converts it into a `None` response carrying the
error message; tags everything with source `"gemini"` and the elapsed
milliseconds. -/
def gemini_get_response_with_metadata (query model : String)
    (apiKeys : Option (List String)) (defaults : List String)
    (oracle : Nat → GeminiAttempt) (elapsedMs : Nat) : BackendMeta :=
  match (gemini_get_response query model apiKeys defaults oracle).result with
  | .ok t => { response := some t, source := "gemini", latency_ms := elapsedMs, error := none }
  | .error e => { response := none, source := "gemini", latency_ms := elapsedMs, error := some e }

/-- Same wrapper with the escaping-exception channel kept in the type: the
only exception `get_response` raises is `GeminiFallbackError` (the model's
`.error`), and the `except GeminiFallbackError` handler converts it, so no
`.error` escapes. -/
def gemini_get_response_with_metadata_exc (query model : String)
    (apiKeys : Option (List String)) (defaults : List String)
    (oracle : Nat → GeminiAttempt) (elapsedMs : Nat) : Except String BackendMeta :=
  match (gemini_get_response query model apiKeys defaults oracle).result with
  | .ok t => .ok { response := some t, source := "gemini", latency_ms := elapsedMs, error := none }
  | .error e => .ok { response := none, source := "gemini", latency_ms := elapsedMs, error := some e }

/-- The success payload of `/ask` (`QueryResponse` in `main.py`). -/
structure QueryResponse where
  response : String
  source : String
  latency_ms : Nat
  deriving DecidableEq, Repr

/-- The row `ask` persists (`QueryLog` in `models.py`, restricted to the
fields `ask` sets; `id` and `timestamp` are column defaults). -/
structure QueryLogRow where
  query : String
  response : String
  source : String
  latency_ms : Nat
  deriving DecidableEq, Repr

/-- What the `/ask` endpoint produces towards its caller: a 200 payload, a
raised `HTTPException` with status and detail, or an exception escaping the
handler uncaught (turned into a plain error response by the serving
layer). -/
inductive AskOutcome where
  | success (payload : QueryResponse)
  | httpError (status : Nat) (detail : String)
  | uncaught (msg : String)
  deriving DecidableEq, Repr

/-- The environment of one `/ask` request: the query, the oracle outcomes of
the outbound calls, the milliseconds each blocking step consumes inside the
measured window, and whether `db.add`/`db.commit` succeeds. -/
structure AskEnv where
  query : String
  ollamaHttp : OllamaHttp
  ollamaMs : Nat
  geminiDefaults : List String
  geminiOracle : Nat → GeminiAttempt
  geminiMs : Nat
  overheadMs : Nat
  dbOk : Bool
  dbErrMsg : String

/-- The `ollama_result` of `main.ask` (line 82): the local adapter called
with the endpoint's query and the default model. -/
def ollamaResultOf (env : AskEnv) : BackendMeta :=
  ollama_get_response_with_metadata env.query "llama3.2" env.ollamaHttp env.ollamaMs

/-- The Gemini fallback result of `main.ask` (line 86): the cloud adapter
called with the endpoint's query, default keys and default model. -/
def geminiResultOf (env : AskEnv) : BackendMeta :=
  gemini_get_response_with_metadata env.query "gemini-pro" none env.geminiDefaults
    env.geminiOracle env.geminiMs

/-- The `result` of `main.ask` (lines 85-88): the Ollama result when its
response is non-null, otherwise the Gemini fallback result. -/
def routedResult (env : AskEnv) : BackendMeta :=
  match (ollamaResultOf env).response with
  | none => geminiResultOf env
  | some _ => ollamaResultOf env

/-- The backends invoked by `main.ask`, in invocation order. -/
def askTrace (env : AskEnv) : List String :=
  match (ollamaResultOf env).response with
  | none => ["ollama", "gemini"]
  | some _ => ["ollama"]

/-- `total_latency_ms` of `main.ask` (line 91): the measured window spans
the Ollama attempt, the Gemini attempt when it happens, and the endpoint's
own overhead inside the window. -/
def askTotalLatency (env : AskEnv) : Nat :=
  env.ollamaMs +
    (match (ollamaResultOf env).response with
     | none => env.geminiMs
     | some _ => 0) +
    env.overheadMs

/-- Milliseconds spent inside the backends that were actually attempted. -/
def attemptedBackendMs (env : AskEnv) : Nat :=
  env.ollamaMs + (if "gemini" ∈ askTrace env then env.geminiMs else 0)

/-- What one `/ask` request produces: the outcome towards the caller, the
backends invoked in order, the row persisted (if any), and the measured
total latency. -/
structure AskResult where
  outcome : AskOutcome
  trace : List String
  persisted : Option QueryLogRow
  totalLatencyMs : Nat

/-- The `/ask` endpoint of `main.py` (lines 69-115): route through Ollama
then Gemini, compute the total latency, raise 503 when both failed,
otherwise persist the log row and return the payload — an exception from
`db.add`/`db.commit` propagates uncaught, and on it nothing is persisted
(the transaction is rolled back, the session closed by `get_db`). -/
def ask (env : AskEnv) : AskResult :=
  match (routedResult env).response with
  | none =>
      { outcome := .httpError 503 "Both local and fallback AI services failed to respond"
      , trace := askTrace env
      , persisted := none
      , totalLatencyMs := askTotalLatency env }
  | some text =>
      if env.dbOk then
        { outcome := .success
            { response := text
            , source := (routedResult env).source
            , latency_ms := askTotalLatency env }
        , trace := askTrace env
        , persisted := some
            { query := env.query
            , response := text
            , source := (routedResult env).source
            , latency_ms := askTotalLatency env }
        , totalLatencyMs := askTotalLatency env }
      else
        { outcome := .uncaught env.dbErrMsg
        , trace := askTrace env
        , persisted := none
        , totalLatencyMs := askTotalLatency env }

/-- A request where the local backend answers `"4"` in 200 ms and the
database write succeeds. -/
def envLocalOk : AskEnv :=
  { query := "What is 2+2?"
  , ollamaHttp := .resp 200 "" (.ok (some "4"))
  , ollamaMs := 200
  , geminiDefaults := []
  , geminiOracle := fun _ => .raised "unused"
  , geminiMs := 0
  , overheadMs := 0
  , dbOk := true
  , dbErrMsg := "" }

/-- The same request with a failing database commit. -/
def envLocalOkDbFail : AskEnv :=
  { envLocalOk with dbOk := false, dbErrMsg := "database commit failed" }

/-- A request where the local backend raises and every configured cloud
credential is rejected. -/
def envAllFail : AskEnv :=
  { query := "What is the capital of France?"
  , ollamaHttp := .raised "connection refused"
  , ollamaMs := 60000
  , geminiDefaults := ["k1", "k2"]
  , geminiOracle := fun _ => .apiError 403 "quota exceeded"
  , geminiMs := 800
  , overheadMs := 1
  , dbOk := true
  , dbErrMsg := "" }

/-- Credential oracle where the first key fails with a server error and the
second succeeds. -/
def rotationOracle : Nat → GeminiAttempt :=
  fun n => if n = 0 then .apiError 500 "server error" else .ok "hi"

/-- C8: every outbound call to the local backend is configured with a
bounded wait of 60 seconds, and every outbound call to the cloud backend
(per credential attempt) with a bounded wait of 30 seconds. -/
theorem adapter_timeout_bounds : ∀ (query model apiKey : String),
    (ollamaHttpCall query model).timeoutSeconds = 60 ∧
    (geminiHttpCall query model apiKey).timeoutSeconds = 30 :=
  fun _ _ _ => ⟨rfl, rfl⟩

/-- C7: each adapter's metadata call returns a result value and never lets
an exception escape the adapter boundary (the exception-typed model is
always `.ok`), and every transport, timeout or decode problem becomes a
failed result: the Ollama response is `none` exactly on a failed outcome,
and the Gemini response is `none` exactly when `get_response` raised. -/
theorem adapter_boundary_no_raise :
    (∀ (query model : String) (h : OllamaHttp) (ms : Nat),
        ollama_get_response_with_metadata_exc query model h ms =
          .ok (ollama_get_response_with_metadata query model h ms) ∧
        ((ollama_get_response_with_metadata query model h ms).response = none ↔
          h.failed = true)) ∧
    (∀ (query model : String) (apiKeys : Option (List String)) (defaults : List String)
        (oracle : Nat → GeminiAttempt) (ms : Nat),
        gemini_get_response_with_metadata_exc query model apiKeys defaults oracle ms =
          .ok (gemini_get_response_with_metadata query model apiKeys defaults oracle ms) ∧
        (gemini_get_response_with_metadata query model apiKeys defaults oracle ms).response =
          (gemini_get_response query model apiKeys defaults oracle).result.toOption) := by
  constructor
  · intro query model h ms
    cases h with
    | raised m =>
        simp [ollama_get_response_with_metadata_exc, ollama_get_response_with_metadata,
          ollama_get_response_exc, ollama_get_response, ollama_try_body, OllamaHttp.failed,
          Except.map]
    | resp s t j =>
        by_cases hs : s = 200
        · cases j with
          | error m =>
              simp [ollama_get_response_with_metadata_exc, ollama_get_response_with_metadata,
                ollama_get_response_exc, ollama_get_response, ollama_try_body,
                OllamaHttp.failed, hs, Except.map]
          | ok f =>
              simp [ollama_get_response_with_metadata_exc, ollama_get_response_with_metadata,
                ollama_get_response_exc, ollama_get_response, ollama_try_body,
                OllamaHttp.failed, hs, Option.isNone_iff_eq_none, Except.map]
        · simp [ollama_get_response_with_metadata_exc, ollama_get_response_with_metadata,
            ollama_get_response_exc, ollama_get_response, ollama_try_body,
            OllamaHttp.failed, hs, Except.map]
  · intro query model apiKeys defaults oracle ms
    cases hr : (gemini_get_response query model apiKeys defaults oracle).result <;>
      simp [gemini_get_response_with_metadata_exc, gemini_get_response_with_metadata, hr,
        Except.toOption]

/-- C7 witness: a raised Ollama call is converted into a `none` response. -/
theorem adapter_boundary_no_raise_witness :
    (ollama_get_response_with_metadata "q" "llama3.2" (.raised "timeout") 5).response = none :=
  ((adapter_boundary_no_raise.1 "q" "llama3.2" (.raised "timeout") 5).2).mpr rfl

/-- C9: an empty effective credential list fails immediately with the
no-keys error and zero attempts, and an explicit empty `api_keys` argument
selects the environment defaults, behaving exactly like passing `None`. -/
theorem gemini_empty_keys :
    (∀ (query model : String) (apiKeys : Option (List String)) (defaults : List String)
        (oracle : Nat → GeminiAttempt),
        geminiEffectiveKeys apiKeys defaults = [] →
          gemini_get_response query model apiKeys defaults oracle =
            { result := .error "No Gemini API keys available", attempts := 0 }) ∧
    (∀ (query model : String) (defaults : List String) (oracle : Nat → GeminiAttempt),
        gemini_get_response query model (some []) defaults oracle =
          gemini_get_response query model none defaults oracle) := by
  constructor
  · intro query model apiKeys defaults oracle he
    simp [gemini_get_response, he]
  · intro query model defaults oracle
    rfl

/-- C9 witness: with no argument keys and empty default keys, the adapter
fails with the no-keys error after zero attempts. -/
theorem gemini_empty_keys_witness :
    gemini_get_response "q" "gemini-pro" none [] (fun _ => .raised "x") =
      { result := .error "No Gemini API keys available", attempts := 0 } :=
  gemini_empty_keys.1 "q" "gemini-pro" none [] (fun _ => .raised "x") rfl

theorem gemini_try_cons_fail (oracle : Nat → GeminiAttempt) (idx : Nat) (k : String)
    (rest errors : List String) (h0 : (oracle idx).isOk = false) :
    gemini_try oracle idx (k :: rest) errors =
      { result := (gemini_try oracle (idx + 1) rest (errors ++ [(oracle idx).errString])).result
      , attempts :=
          (gemini_try oracle (idx + 1) rest (errors ++ [(oracle idx).errString])).attempts + 1 } := by
  cases hx : oracle idx with
  | ok t => rw [hx] at h0; simp [GeminiAttempt.isOk] at h0
  | raised m => simp only [gemini_try, hx]
  | apiError s t => simp only [gemini_try, hx]
  | badStructure b => simp only [gemini_try, hx]

theorem gemini_try_cons_ok (oracle : Nat → GeminiAttempt) (idx : Nat) (k : String)
    (rest errors : List String) (t : String) (hx : oracle idx = .ok t) :
    gemini_try oracle idx (k :: rest) errors = { result := .ok t, attempts := 1 } := by
  simp only [gemini_try, hx]

theorem gemini_try_all_fail (oracle : Nat → GeminiAttempt) (remaining : List String) :
    ∀ (idx : Nat) (errors : List String),
      (∀ j, j < remaining.length → (oracle (idx + j)).isOk = false) →
      gemini_try oracle idx remaining errors =
        { result := .error ("All Gemini API keys failed: " ++ String.intercalate "; "
            (errors ++ (List.range remaining.length).map fun j => (oracle (idx + j)).errString))
        , attempts := remaining.length } := by
  induction remaining with
  | nil => intro idx errors _; simp [gemini_try]
  | cons k rest ih =>
      intro idx errors hfail
      have h0 : (oracle idx).isOk = false := by
        have := hfail 0 (by simp)
        simpa using this
      have hrest : ∀ j, j < rest.length → (oracle (idx + 1 + j)).isOk = false := by
        intro j hj
        have := hfail (j + 1) (by simpa using Nat.succ_lt_succ hj)
        have harith : idx + (j + 1) = idx + 1 + j := by omega
        rwa [harith] at this
      have hshift :
          (List.range (k :: rest).length).map (fun j => (oracle (idx + j)).errString) =
            (oracle idx).errString ::
              (List.range rest.length).map (fun j => (oracle (idx + 1 + j)).errString) := by
        simp only [List.length_cons, List.range_succ_eq_map, List.map_cons, List.map_map,
          Nat.add_zero]
        congr 1
        apply List.map_congr_left
        intro j _
        have harith : idx + (j + 1) = idx + 1 + j := by omega
        simp [Function.comp, Nat.succ_eq_add_one, harith]
      rw [gemini_try_cons_fail oracle idx k rest errors h0,
        ih (idx + 1) (errors ++ [(oracle idx).errString]) hrest, hshift]
      simp [List.append_assoc]

theorem gemini_try_first_ok (oracle : Nat → GeminiAttempt) (remaining : List String) :
    ∀ (idx : Nat) (errors : List String) (i : Nat) (t : String),
      i < remaining.length → oracle (idx + i) = .ok t →
      (∀ j, j < i → (oracle (idx + j)).isOk = false) →
      gemini_try oracle idx remaining errors = { result := .ok t, attempts := i + 1 } := by
  induction remaining with
  | nil => intro idx errors i t hi _ _; simp at hi
  | cons k rest ih =>
      intro idx errors i t hi hok hbefore
      cases i with
      | zero =>
          have hx : oracle idx = .ok t := by simpa using hok
          exact gemini_try_cons_ok oracle idx k rest errors t hx
      | succ i =>
          have h0 : (oracle idx).isOk = false := by
            have := hbefore 0 (Nat.succ_pos _)
            simpa using this
          rw [gemini_try_cons_fail oracle idx k rest errors h0]
          have hok1 : oracle (idx + 1 + i) = .ok t := by
            have harith : idx + (i + 1) = idx + 1 + i := by omega
            rwa [harith] at hok
          have hbefore1 : ∀ j, j < i → (oracle (idx + 1 + j)).isOk = false := by
            intro j hj
            have := hbefore (j + 1) (by omega)
            have harith : idx + (j + 1) = idx + 1 + j := by omega
            rwa [harith] at this
          rw [ih (idx + 1) (errors ++ [(oracle idx).errString]) i t (by simpa using hi)
            hok1 hbefore1]

/-- C4: for every query and non-empty credential list, the cloud adapter
tries credentials in list order: it stops at the first credential whose
attempt yields a successful, well-formed response (having attempted exactly
the credentials before it), and it declares total failure only after all
credentials failed, aggregating each attempt's cause, in order, into the
raised error. -/
theorem gemini_rotation (keys defaults : List String) (oracle : Nat → GeminiAttempt)
    (query model : String) (hne : keys ≠ []) :
    (∀ (i : Nat) (t : String), i < keys.length → oracle i = .ok t →
        (∀ j, j < i → (oracle j).isOk = false) →
        gemini_get_response query model (some keys) defaults oracle =
          { result := .ok t, attempts := i + 1 }) ∧
    ((∀ j, j < keys.length → (oracle j).isOk = false) →
        gemini_get_response query model (some keys) defaults oracle =
          { result := .error ("All Gemini API keys failed: " ++ String.intercalate "; "
              ((List.range keys.length).map fun j => (oracle j).errString))
          , attempts := keys.length }) := by
  have heff : geminiEffectiveKeys (some keys) defaults = keys := by
    cases keys with
    | nil => exact absurd rfl hne
    | cons k ks => rfl
  have hval : gemini_get_response query model (some keys) defaults oracle =
      gemini_try oracle 0 keys [] := by
    rw [gemini_get_response, heff]
    cases keys with
    | nil => exact absurd rfl hne
    | cons k ks => rfl
  constructor
  · intro i t hi hok hbefore
    rw [hval]
    exact gemini_try_first_ok oracle keys 0 [] i t hi (by simpa using hok)
      (fun j hj => by simpa using hbefore j hj)
  · intro hfail
    rw [hval, gemini_try_all_fail oracle keys 0 []
      (fun j hj => by simpa using hfail j hj)]
    simp

/-- C4 witness: with two credentials where the first fails with a server
error and the second succeeds, the adapter returns the second credential's
text after exactly two attempts. -/
theorem gemini_rotation_witness :
    gemini_get_response "q" "gemini-pro" (some ["k1", "k2"]) [] rotationOracle =
      { result := .ok "hi", attempts := 2 } :=
  (gemini_rotation ["k1", "k2"] [] rotationOracle "q" "gemini-pro" (by decide)).1
    1 "hi" (by decide) (by decide) (by decide)

theorem gemini_meta_source (query model : String) (apiKeys : Option (List String))
    (defaults : List String) (oracle : Nat → GeminiAttempt) (ms : Nat) :
    (gemini_get_response_with_metadata query model apiKeys defaults oracle ms).source =
      "gemini" := by
  unfold gemini_get_response_with_metadata
  cases (gemini_get_response query model apiKeys defaults oracle).result <;> rfl

theorem routed_of_ollama_none (env : AskEnv) (h : (ollamaResultOf env).response = none) :
    routedResult env = geminiResultOf env := by
  simp [routedResult, h]

theorem routed_of_ollama_some (env : AskEnv) (t : String)
    (h : (ollamaResultOf env).response = some t) :
    routedResult env = ollamaResultOf env := by
  simp [routedResult, h]

theorem ask_eq_of_response_none (env : AskEnv) (h : (routedResult env).response = none) :
    ask env =
      { outcome := .httpError 503 "Both local and fallback AI services failed to respond"
      , trace := askTrace env
      , persisted := none
      , totalLatencyMs := askTotalLatency env } := by
  simp [ask, h]

theorem ask_eq_of_response_some_db (env : AskEnv) (t : String)
    (h : (routedResult env).response = some t) (hdb : env.dbOk = true) :
    ask env =
      { outcome := .success
          { response := t, source := (routedResult env).source
          , latency_ms := askTotalLatency env }
      , trace := askTrace env
      , persisted := some
          { query := env.query, response := t, source := (routedResult env).source
          , latency_ms := askTotalLatency env }
      , totalLatencyMs := askTotalLatency env } := by
  simp [ask, h, hdb]

theorem ask_eq_of_response_some_nodb (env : AskEnv) (t : String)
    (h : (routedResult env).response = some t) (hdb : env.dbOk = false) :
    ask env =
      { outcome := .uncaught env.dbErrMsg
      , trace := askTrace env
      , persisted := none
      , totalLatencyMs := askTotalLatency env } := by
  simp [ask, h, hdb]

theorem ask_trace_eq (env : AskEnv) : (ask env).trace = askTrace env := by
  unfold ask
  cases (routedResult env).response with
  | none => rfl
  | some t => by_cases hdb : env.dbOk = true <;> simp [hdb]

theorem ask_totalLatency_eq (env : AskEnv) :
    (ask env).totalLatencyMs = askTotalLatency env := by
  unfold ask
  cases (routedResult env).response with
  | none => rfl
  | some t => by_cases hdb : env.dbOk = true <;> simp [hdb]

theorem ask_success_inv (env : AskEnv) (p : QueryResponse)
    (h : (ask env).outcome = .success p) :
    (routedResult env).response = some p.response ∧
    p.source = (routedResult env).source ∧
    p.latency_ms = askTotalLatency env ∧
    env.dbOk = true ∧
    (ask env).persisted = some
      { query := env.query, response := p.response, source := p.source
      , latency_ms := p.latency_ms } := by
  cases hr : (routedResult env).response with
  | none =>
      rw [ask_eq_of_response_none env hr] at h
      simp at h
  | some t =>
      by_cases hdb : env.dbOk = true
      · rw [ask_eq_of_response_some_db env t hr hdb] at h ⊢
        rw [AskOutcome.success.injEq] at h
        subst h
        exact ⟨rfl, rfl, rfl, hdb, rfl⟩
      · rw [ask_eq_of_response_some_nodb env t hr (by simpa using hdb)] at h
        simp at h

theorem ask_persisted_inv (env : AskEnv) (row : QueryLogRow)
    (hrow : (ask env).persisted = some row) :
    (routedResult env).response = some row.response ∧
    row.query = env.query ∧
    row.source = (routedResult env).source ∧
    row.latency_ms = askTotalLatency env ∧
    env.dbOk = true := by
  cases hr : (routedResult env).response with
  | none =>
      rw [ask_eq_of_response_none env hr] at hrow
      simp at hrow
  | some t =>
      by_cases hdb : env.dbOk = true
      · rw [ask_eq_of_response_some_db env t hr hdb] at hrow
        simp only [Option.some.injEq] at hrow
        rw [← hrow]
        exact ⟨rfl, rfl, rfl, rfl, hdb⟩
      · rw [ask_eq_of_response_some_nodb env t hr (by simpa using hdb)] at hrow
        simp at hrow

/-- C1 counterexample: a request whose local backend succeeded (`"4"`) but
whose database commit fails produces an uncaught error towards the caller,
not the already-computed successful answer. -/
theorem persistence_failure_counterexample :
    (routedResult envLocalOkDbFail).response = some "4" ∧
    (ask envLocalOkDbFail).outcome = .uncaught "database commit failed" :=
  ⟨rfl, rfl⟩

/-- C1 (amended): when a backend succeeded, the answer reaches the caller
as a success only when persisting the log entry also succeeds; a
persistence error propagates uncaught and the caller gets an error
response instead of the already-computed answer. -/
theorem persistence_failure_propagates (env : AskEnv) (t : String)
    (h : (routedResult env).response = some t) :
    (env.dbOk = true → (ask env).outcome = .success
        { response := t, source := (routedResult env).source
        , latency_ms := askTotalLatency env }) ∧
    (env.dbOk = false → (ask env).outcome = .uncaught env.dbErrMsg) := by
  constructor
  · intro hdb
    rw [ask_eq_of_response_some_db env t h hdb]
  · intro hdb
    rw [ask_eq_of_response_some_nodb env t h hdb]

/-- C1 witness: a locally answered request with a working database returns
the payload as a success. -/
theorem persistence_failure_propagates_witness :
    (envLocalOk.dbOk = true → (ask envLocalOk).outcome = .success
        { response := "4", source := (routedResult envLocalOk).source
        , latency_ms := askTotalLatency envLocalOk }) ∧
    (envLocalOk.dbOk = false → (ask envLocalOk).outcome = .uncaught envLocalOk.dbErrMsg) :=
  persistence_failure_propagates envLocalOk "4" rfl

/-- C2 counterexample: a successfully answered query returns and persists
the source value `"ollama"`, which is neither `"local"` nor
`"fallback"`. -/
theorem source_values_counterexample :
    (ask envLocalOk).outcome = .success
      { response := "4", source := "ollama", latency_ms := 200 } ∧
    (ask envLocalOk).persisted = some
      { query := "What is 2+2?", response := "4", source := "ollama", latency_ms := 200 } ∧
    "ollama" ≠ "local" ∧ "ollama" ≠ "fallback" := by
  refine ⟨rfl, rfl, ?_, ?_⟩ <;> decide

/-- C2 (amended): for every successfully answered query, the `source` field
of the returned payload and of the persisted row is exactly one of the
enumerated values `"ollama"` (local backend answered) or `"gemini"` (cloud
fallback answered), and the persisted row always agrees with the payload. -/
theorem source_values (env : AskEnv) (p : QueryResponse)
    (h : (ask env).outcome = .success p) :
    (p.source = "ollama" ∨ p.source = "gemini") ∧
    ((ollamaResultOf env).response = none → p.source = "gemini") ∧
    (∀ t, (ollamaResultOf env).response = some t → p.source = "ollama") ∧
    (∀ row, (ask env).persisted = some row → row.source = p.source) := by
  obtain ⟨hresp, hsrc, hlat, hdb, hpers⟩ := ask_success_inv env p h
  refine ⟨?_, ?_, ?_, ?_⟩
  · rw [hsrc]
    cases ho : (ollamaResultOf env).response with
    | none =>
        right
        rw [routed_of_ollama_none env ho]
        exact gemini_meta_source env.query "gemini-pro" none env.geminiDefaults
          env.geminiOracle env.geminiMs
    | some t =>
        left
        rw [routed_of_ollama_some env t ho]
        rfl
  · intro ho
    rw [hsrc, routed_of_ollama_none env ho]
    exact gemini_meta_source env.query "gemini-pro" none env.geminiDefaults
      env.geminiOracle env.geminiMs
  · intro t ho
    rw [hsrc, routed_of_ollama_some env t ho]
    rfl
  · intro row hrow
    rw [hpers] at hrow
    simp only [Option.some.injEq] at hrow
    rw [← hrow]

/-- C2 witness: the payload of a locally answered request carries one of
the two enumerated source values. -/
theorem source_values_witness :
    ({ response := "4", source := "ollama", latency_ms := 200 } : QueryResponse).source =
        "ollama" ∨
    ({ response := "4", source := "ollama", latency_ms := 200 } : QueryResponse).source =
        "gemini" :=
  (source_values envLocalOk { response := "4", source := "ollama", latency_ms := 200 } rfl).1

/-- C3: every request attempts the local backend first; the cloud backend
is invoked exactly when the local attempt produced a null response; when
the local backend succeeds the trace stops at `["ollama"]`; and no backend
appears twice (no individual retry). -/
theorem routing_order (env : AskEnv) :
    (ask env).trace.head? = some "ollama" ∧
    ("gemini" ∈ (ask env).trace ↔ (ollamaResultOf env).response = none) ∧
    ((ask env).trace = ["ollama"] ↔ (ollamaResultOf env).response ≠ none) ∧
    (ask env).trace.Nodup := by
  rw [ask_trace_eq env]
  unfold askTrace
  cases ho : (ollamaResultOf env).response with
  | none => exact ⟨rfl, by simp, by simp, by decide⟩
  | some t =>
      refine ⟨rfl, by simp, by simp, ?_⟩
      show (["ollama"] : List String).Nodup
      decide

/-- C3 witness: when the local backend raises, the cloud backend is invoked
and no backend is attempted twice. -/
theorem routing_order_witness :
    "gemini" ∈ (ask envAllFail).trace ∧ (ask envAllFail).trace.Nodup :=
  ⟨((routing_order envAllFail).2.1).mpr rfl, (routing_order envAllFail).2.2.2⟩

/-- C5: when both backends fail, the caller receives the single 503 error
with a fixed detail string free of backend diagnostics, and nothing is
persisted; and a row is persisted only for a request whose outcome is a
success carrying the very same non-null response. -/
theorem unavailable_and_persist_invariant :
    (∀ env : AskEnv, (ollamaResultOf env).response = none →
        (geminiResultOf env).response = none →
        (ask env).outcome =
          .httpError 503 "Both local and fallback AI services failed to respond" ∧
        (ask env).persisted = none) ∧
    (∀ (env : AskEnv) (row : QueryLogRow), (ask env).persisted = some row →
        (ask env).outcome = .success
          { response := row.response, source := row.source, latency_ms := row.latency_ms }) := by
  constructor
  · intro env ho hg
    have hr : (routedResult env).response = none := by
      rw [routed_of_ollama_none env ho]
      exact hg
    rw [ask_eq_of_response_none env hr]
    exact ⟨rfl, rfl⟩
  · intro env row hrow
    cases hr : (routedResult env).response with
    | none =>
        rw [ask_eq_of_response_none env hr] at hrow
        simp at hrow
    | some t =>
        by_cases hdb : env.dbOk = true
        · rw [ask_eq_of_response_some_db env t hr hdb] at hrow ⊢
          simp only [Option.some.injEq] at hrow
          rw [← hrow]
        · rw [ask_eq_of_response_some_nodb env t hr (by simpa using hdb)] at hrow
          simp at hrow

/-- C5 witness: with a raising local backend and every cloud credential
rejected, the caller gets the fixed 503 and no row is persisted; a request
persisted a row exactly when it succeeded with that row's response. -/
theorem unavailable_and_persist_invariant_witness :
    ((ask envAllFail).outcome =
        .httpError 503 "Both local and fallback AI services failed to respond" ∧
      (ask envAllFail).persisted = none) ∧
    (ask envLocalOk).outcome = .success
      { response := "4", source := "ollama", latency_ms := 200 } :=
  ⟨unavailable_and_persist_invariant.1 envAllFail rfl rfl,
   unavailable_and_persist_invariant.2 envLocalOk
     { query := "What is 2+2?", response := "4", source := "ollama", latency_ms := 200 } rfl⟩

/-- C6: the measured latency is a natural number (hence non-negative)
spanning the whole routing window: it is never less than the sum of the
attempted backends' durations, and the value returned in the payload and
the value persisted both equal this one total. -/
theorem latency_covers_attempts (env : AskEnv) :
    attemptedBackendMs env ≤ askTotalLatency env ∧
    (ask env).totalLatencyMs = askTotalLatency env ∧
    (∀ p, (ask env).outcome = .success p →
        p.latency_ms = askTotalLatency env ∧ attemptedBackendMs env ≤ p.latency_ms) ∧
    (∀ row, (ask env).persisted = some row → row.latency_ms = askTotalLatency env) := by
  have hle : attemptedBackendMs env ≤ askTotalLatency env := by
    unfold attemptedBackendMs askTotalLatency askTrace
    cases ho : (ollamaResultOf env).response with
    | none => simp
    | some t => simp
  refine ⟨hle, ask_totalLatency_eq env, ?_, ?_⟩
  · intro p hp
    obtain ⟨_, _, hlat, _, _⟩ := ask_success_inv env p hp
    exact ⟨hlat, hlat ▸ hle⟩
  · intro row hrow
    exact (ask_persisted_inv env row hrow).2.2.2.1

/-- C6 witness: the latency of a concrete locally-answered request equals
the measured total and covers the local attempt's duration. -/
theorem latency_covers_attempts_witness :
    ({ response := "4", source := "ollama", latency_ms := 200 } : QueryResponse).latency_ms =
      askTotalLatency envLocalOk ∧
    attemptedBackendMs envLocalOk ≤
      ({ response := "4", source := "ollama", latency_ms := 200 } : QueryResponse).latency_ms :=
  (latency_covers_attempts envLocalOk).2.2.1
    { response := "4", source := "ollama", latency_ms := 200 } rfl

/-- C10: for every successfully answered query, the persisted row agrees
field for field with the input and the returned payload: stored query =
input query, stored response/source/latency = returned
response/source/latency. -/
theorem persisted_matches_payload (env : AskEnv) (p : QueryResponse)
    (h : (ask env).outcome = .success p) :
    (ask env).persisted = some
      { query := env.query, response := p.response, source := p.source
      , latency_ms := p.latency_ms } :=
  (ask_success_inv env p h).2.2.2.2

/-- C10 witness: the concrete locally-answered request persists exactly the
returned payload together with the input query. -/
theorem persisted_matches_payload_witness :
    (ask envLocalOk).persisted = some
      { query := envLocalOk.query, response := "4", source := "ollama", latency_ms := 200 } :=
  persisted_matches_payload envLocalOk
    { response := "4", source := "ollama", latency_ms := 200 } rfl

end SwarAI
